import Mathlib

/-!
# LottoRust — verification of the ingestion-and-deduplication pipeline

Shallow embedding of the core of `src/mcp-server/src` (the latest coherent
revision of the repository, per the specification's scoping): the SQLite-backed
`ResultStore` (`database.rs`), the `IngestionPipeline`
(`api.rs::fetch_and_save_multiple_results`), the `RawJsonIngestor`
(`database.rs::parse_and_insert_raw_json`) and the `DateFormatter`
(`utils.rs::format_date_for_api`).

Modelling decisions, each tied to the source:

* The SQLite connection is a `Conn` record: the two tables as lists of rows in
  rowid (insertion) order, the `AUTOINCREMENT` next-id counters of the two
  tables, and the connection-level registers `last_insert_rowid` (rowid of the
  most recent *successful* insert, 0 on a fresh connection) and `changes`
  (row count of the most recent data-modifying statement) — both of which the
  source reads (`database.rs` lines 64 and 490).
* `lottery_results` is declared `draw_date TEXT NOT NULL UNIQUE`, so its
  `INSERT OR IGNORE` no-ops exactly when the date is already present.
* `prize_numbers` is declared with *no* uniqueness constraint beyond the
  autoincrement primary key (`database.rs` lines 34-46: `lottery_id INTEGER
  NOT NULL, category TEXT NOT NULL, prize_amount TEXT NOT NULL, number_value
  TEXT NOT NULL, round_number INTEGER NOT NULL`, plus a foreign key, which is
  not a uniqueness constraint and is not enforced since the code never enables
  `PRAGMA foreign_keys`). Its `INSERT OR IGNORE` therefore has no constraint
  that could fire and always inserts a fresh row.
* `created_at DATETIME DEFAULT CURRENT_TIMESTAMP` columns are wall-clock
  values outside the model and are omitted from the row records; no claim
  mentions them.
* String columns compare under SQLite's default BINARY collation (byte-wise
  memcmp of the UTF-8 encoding), modelled by `strLe` below; the dates handled
  by the program are ASCII, where this is character-wise lexicographic order.
-/

deriving instance DecidableEq for Except

/-- `types.rs::PrizeNumber`: one winning-number entry, `{ round: i32, value: String }`. -/
structure PrizeNumber where
  round : Int
  value : String
deriving DecidableEq, Repr

/-- `types.rs::PrizeCategory`: `{ price: String, number: Vec<PrizeNumber> }`. -/
structure PrizeCategory where
  price : String
  number : List PrizeNumber
deriving DecidableEq, Repr

/-- `types.rs::LotteryData`: the nine fixed prize categories. -/
structure LotteryData where
  first : PrizeCategory
  second : PrizeCategory
  third : PrizeCategory
  fourth : PrizeCategory
  fifth : PrizeCategory
  last2 : PrizeCategory
  last3f : PrizeCategory
  last3b : PrizeCategory
  near1 : PrizeCategory
deriving DecidableEq, Repr

/-- `types.rs::LotteryResult`: one normalized draw result. -/
structure LotteryResult where
  date : String
  period : List Int
  data : LotteryData
deriving DecidableEq, Repr

/-- `types.rs::ResponseData`: `{ result: Option<LotteryResult> }`. -/
structure ResponseData where
  result : Option LotteryResult
deriving DecidableEq, Repr

/-- `types.rs::LotteryResponse`: the decoded reply of the remote endpoint. -/
structure LotteryResponse where
  status_message : String
  status_code : Int
  status : Bool
  response : Option ResponseData
deriving DecidableEq, Repr

/-- One row of the `lottery_results` table (`types.rs::LotteryResultRow`;
the wall-clock `created_at` column is outside the model). -/
structure LotteryResultRow where
  id : Int
  draw_date : String
  period : String
deriving DecidableEq, Repr

/-- One row of the `prize_numbers` table (`types.rs::PrizeNumberRow`;
the wall-clock `created_at` column is outside the model). -/
structure PrizeNumberRow where
  id : Int
  lottery_id : Int
  category : String
  prize_amount : String
  number_value : String
  round_number : Int
deriving DecidableEq, Repr

/-- The SQLite connection and database state shared by all operations.
Tables are kept in rowid (= insertion) order. `last_insert_rowid` and
`changes` are the connection registers read by `database.rs` lines 64/65 and
490: `sqlite3_last_insert_rowid` is the rowid of the most recent successful
`INSERT` on the connection (0 if none yet) and is *not* updated by an
`INSERT OR IGNORE` that inserted nothing; `sqlite3_changes` is the number of
rows changed by the most recent `INSERT`/`UPDATE`/`DELETE`. -/
structure Conn where
  lottery_results : List LotteryResultRow
  prize_numbers : List PrizeNumberRow
  lottery_seq : Int
  prize_seq : Int
  last_insert_rowid : Int
  changes : Int
deriving DecidableEq, Repr

/-- Errors surfaced through `rusqlite::Result`: `QueryReturnedNoRows` from a
`query_row` that matches nothing, the `InvalidColumnType(0, msg, Text)` values
that `parse_and_insert_raw_json` manufactures for its parse/schema failures,
and `SqliteFailure` for an underlying storage-engine failure. -/
inductive DbErr where
  | queryReturnedNoRows
  | invalidColumnType (msg : String)
  | sqliteFailure (msg : String)
deriving DecidableEq, Repr

/-- `database.rs::create_database`: `CREATE TABLE IF NOT EXISTS` for the two
tables and a fresh connection over them. A fresh database has empty tables,
`AUTOINCREMENT` counters starting at 1, and the connection registers at 0. -/
def create_database : Conn :=
  { lottery_results := []
    prize_numbers := []
    lottery_seq := 1
    prize_seq := 1
    last_insert_rowid := 0
    changes := 0 }

/-- The statement `INSERT OR IGNORE INTO lottery_results (draw_date, period)
VALUES (?1, ?2)` (`database.rs` lines 59-62 and 485-488). `draw_date` is
`UNIQUE`, so the insert is ignored exactly when the date is already present;
an ignored insert leaves `last_insert_rowid` untouched and sets `changes` to
0, a successful one appends the row under the next autoincrement id. -/
def execInsertLotteryResult (c : Conn) (draw_date period : String) : Conn :=
  if c.lottery_results.any (fun r => r.draw_date == draw_date) then
    { c with changes := 0 }
  else
    { c with
        lottery_results :=
          c.lottery_results ++ [⟨c.lottery_seq, draw_date, period⟩]
        lottery_seq := c.lottery_seq + 1
        last_insert_rowid := c.lottery_seq
        changes := 1 }

/-- The statement `INSERT OR IGNORE INTO prize_numbers (lottery_id, category,
prize_amount, number_value, round_number) VALUES (?1, ?2, ?3, ?4, ?5)`
(`database.rs` lines 90-101 and 538-543). The table declares no uniqueness
constraint over these columns (only the autoincrement primary key), so the
`OR IGNORE` clause never fires: the statement always appends a fresh row. -/
def execInsertPrizeNumber (c : Conn) (lottery_id : Int)
    (category prize_amount number_value : String) (round_number : Int) : Conn :=
  { c with
      prize_numbers :=
        c.prize_numbers ++
          [⟨c.prize_seq, lottery_id, category, prize_amount, number_value,
            round_number⟩]
      prize_seq := c.prize_seq + 1
      last_insert_rowid := c.prize_seq
      changes := 1 }

/-- The query `SELECT id FROM lottery_results WHERE draw_date = ?1`
(`database.rs` lines 66 and 493), as run through `query_row`: the id of the
first matching row, if any. -/
def selectLotteryIdByDate (c : Conn) (date : String) : Option Int :=
  (c.lottery_results.find? (fun r => r.draw_date == date)).map (fun r => r.id)

/-- The category table of `database.rs::save_prize_numbers` lines 76-86. -/
def categoriesOf (data : LotteryData) : List (String × PrizeCategory) :=
  [("first", data.first), ("second", data.second), ("third", data.third),
   ("fourth", data.fourth), ("fifth", data.fifth), ("last2", data.last2),
   ("last3f", data.last3f), ("last3b", data.last3b), ("near1", data.near1)]

/-- `database.rs::save_prize_numbers`: for every category and every number in
it, run the prize-number insert. None of the inserts can fail in the model
(the statement violates no constraint), so the function is total on `Conn`. -/
def save_prize_numbers (c : Conn) (lottery_id : Int) (data : LotteryData) : Conn :=
  (categoriesOf data).foldl
    (fun c cat =>
      cat.2.number.foldl
        (fun c pn =>
          execInsertPrizeNumber c lottery_id cat.1 cat.2.price pn.value pn.round)
        c)
    c

/-- `database.rs::save_lottery_result` (lines 51-73): insert-or-ignore the
draw record, then read `last_insert_rowid()`; when that register is 0 (which
on a real connection means no insert has ever succeeded on it) fall back to
looking the id up by `draw_date`, otherwise use the register's value as the
lottery id; finally run `save_prize_numbers` under that id. The connection
state is returned alongside the outcome because SQLite mutations persist
across an early error return. -/
def save_lottery_result (c : Conn) (result : LotteryResult) :
    Conn × Except DbErr Unit :=
  let period_str := String.intercalate "," (result.period.map toString)
  let c1 := execInsertLotteryResult c result.date period_str
  let lottery_id := c1.last_insert_rowid
  if lottery_id == 0 then
    match selectLotteryIdByDate c1 result.date with
    | none => (c1, Except.error DbErr.queryReturnedNoRows)
    | some row => (save_prize_numbers c1 row result.data, Except.ok ())
  else
    (save_prize_numbers c1 lottery_id result.data, Except.ok ())

/-- `database.rs::save_multiple_lottery_results` (lines 107-112): `save` each
result in order; the `?` on each call aborts the remaining sequence on the
first error while keeping the connection state already produced. -/
def save_multiple_lottery_results (c : Conn) (results : List LotteryResult) :
    Conn × Except DbErr Unit :=
  match results with
  | [] => (c, Except.ok ())
  | r :: rest =>
    match save_lottery_result c r with
    | (c1, Except.ok _) => save_multiple_lottery_results c1 rest
    | (c1, Except.error e) => (c1, Except.error e)

/-- `database.rs::lottery_exists_for_date` (lines 402-406):
`SELECT COUNT(*) FROM lottery_results WHERE draw_date = ?1`, then `count > 0`. -/
def lottery_exists_for_date (c : Conn) (date : String) : Bool :=
  0 < (c.lottery_results.filter (fun r => r.draw_date == date)).length

/-- The Rust format specifier `{:0>2}`: left-pad with the character `0` to a
minimum width of 2. -/
def padLeft2 (s : String) : String :=
  if s.length ≥ 2 then s else String.mk (List.replicate (2 - s.length) '0') ++ s

/-- `utils.rs::format_date_for_api`: `format!("{}-{:0>2}-{:0>2}", year, month, date)`,
the canonical `YYYY-MM-DD` storage key. -/
def format_date_for_api (date month year : String) : String :=
  year ++ "-" ++ padLeft2 month ++ "-" ++ padLeft2 date

/-- `database.rs::check_existing_dates` (lines 408-425): bucket each
(date, month, year) triple by whether its canonical key is already stored —
`dates_to_fetch` keeps the triples whose key is absent, `existing_dates`
collects the formatted keys already present, both in input order. -/
def check_existing_dates (c : Conn) :
    List (String × String × String) →
      List (String × String × String) × List String
  | [] => ([], [])
  | t :: rest =>
    let formatted := format_date_for_api t.1 t.2.1 t.2.2
    let p := check_existing_dates c rest
    if lottery_exists_for_date c formatted then
      (p.1, formatted :: p.2)
    else
      (t :: p.1, p.2)

/-- Byte-wise comparison of two character lists, the order SQLite's default
BINARY collation gives TEXT values (the strings handled by the program are
ASCII, where bytes and characters coincide). -/
def charListLe : List Char → List Char → Bool
  | [], _ => true
  | _ :: _, [] => false
  | a :: as, b :: bs =>
    if a < b then true else if b < a then false else charListLe as bs

/-- `strLe a b` models `a <= b` for TEXT values under BINARY collation. -/
def strLe (a b : String) : Bool := charListLe a.data b.data

/-- The comparison behind `ORDER BY draw_date DESC`: row `x` may precede
row `y` when `y`'s date is at most `x`'s. -/
def rowDateDescLe (x y : LotteryResultRow) : Prop :=
  strLe y.draw_date x.draw_date = true

instance : DecidableRel rowDateDescLe := fun _ _ =>
  inferInstanceAs (Decidable (_ = true))

/-- The effect of `ORDER BY draw_date DESC` on a result set. -/
def sortByDateDesc (l : List LotteryResultRow) : List LotteryResultRow :=
  List.insertionSort rowDateDescLe l

/-- `database.rs::get_lottery_results_after_date` (lines 313-349). With a
limit the built query is `SELECT ... WHERE draw_date >= ?1 LIMIT n` — it has
*no* `ORDER BY` clause, so SQLite returns the matching rows in whatever order
the chosen scan produces; the model uses the rowid (table) order of a full
scan. A negative `LIMIT` means no limit in SQLite. Without a limit the query
ends in `ORDER BY draw_date DESC`. -/
def get_lottery_results_after_date (c : Conn) (date : String)
    (limit : Option Int) : List LotteryResultRow :=
  let filtered := c.lottery_results.filter (fun r => strLe date r.draw_date)
  match limit with
  | some limit_val =>
    if limit_val < 0 then filtered else filtered.take limit_val.toNat
  | none => sortByDateDesc filtered

/-- `database.rs::get_lottery_results_before_date` (lines 351-388). Both the
limited and the unlimited query end in `ORDER BY draw_date DESC`; the limited
one additionally applies `LIMIT n` (negative meaning no limit). -/
def get_lottery_results_before_date (c : Conn) (date : String)
    (limit : Option Int) : List LotteryResultRow :=
  let filtered := c.lottery_results.filter (fun r => strLe r.draw_date date)
  let sorted := sortByDateDesc filtered
  match limit with
  | some limit_val =>
    if limit_val < 0 then sorted else sorted.take limit_val.toNat
  | none => sorted

/-- Outcome of one `fetch_lottery_result` call (`api.rs` lines 9-30), as seen
by the caller at line 47: `ok resp` when the HTTP round-trip and the JSON
decode both succeeded, `err` when either failed (`reqwest` transport errors
and body-decode errors both surface through the same `?`/`Err` path). -/
inductive FetchOutcome where
  | ok (resp : LotteryResponse)
  | err (msg : String)
deriving DecidableEq, Repr

/-- The body of the per-date match in `api.rs` lines 47-58: a fetched
response contributes a result exactly when `status && status_code == 200`
and both `response` and `response.result` are present; a transport/decode
failure contributes nothing. -/
def extract_result (o : FetchOutcome) : Option LotteryResult :=
  match o with
  | FetchOutcome.err _ => none
  | FetchOutcome.ok resp =>
    if resp.status && (resp.status_code == 200) then
      match resp.response with
      | some response_data => response_data.result
      | none => none
    else none

/-- The fetch loop of `api.rs` lines 46-60 over `dates_to_fetch`, abstracted
over the remote source: first component accumulates the successfully decoded
results in order, second component records every triple a fetch call was
issued for (one call per element, in input order — the loop body runs for
every element regardless of earlier outcomes). The 1-second pacing `sleep`
is wall-clock time, outside the model. -/
def fetch_loop (fetch : String × String × String → FetchOutcome) :
    List (String × String × String) →
      List LotteryResult × List (String × String × String)
  | [] => ([], [])
  | t :: rest =>
    let r := extract_result (fetch t)
    let p := fetch_loop fetch rest
    match r with
    | some res => (res :: p.1, t :: p.2)
    | none => (p.1, t :: p.2)

/-- `api.rs::fetch_and_save_multiple_results` (lines 32-66), the
`IngestionPipeline.run` of the specification. The two external effects are
parameters: `fetch` is the remote source (one outcome per requested triple)
and `saveManyOp` is the trailing batch-persist step — the repository
instantiates it with `save_multiple_lottery_results`; an instantiation
returning `Except.error` models an underlying storage failure, which
`rusqlite::Result` admits on any statement. Returns the connection state,
the `Result` value of the Rust function (`Ok(all_results)` or the
propagated save error), and the trace of fetch calls issued. -/
def fetch_and_save_multiple_results
    (saveManyOp : Conn → List LotteryResult → Conn × Except DbErr Unit)
    (fetch : String × String × String → FetchOutcome)
    (c : Conn) (dates : List (String × String × String)) :
    (Conn × Except DbErr (List LotteryResult)) ×
      List (String × String × String) :=
  let partitioned := check_existing_dates c dates
  if partitioned.1.isEmpty then ((c, Except.ok []), [])
  else
    let fetched := fetch_loop fetch partitioned.1
    if fetched.1.isEmpty then ((c, Except.ok fetched.1), fetched.2)
    else
      match saveManyOp c fetched.1 with
      | (c1, Except.ok _) => ((c1, Except.ok fetched.1), fetched.2)
      | (c1, Except.error e) => ((c1, Except.error e), fetched.2)

/-- `serde_json::Value`, restricted to the fragment the code observes.
Numbers carry only their integral value: every number the code reads goes
through `as_i64` (period elements, `round`), and no claim involves a
fractional number. -/
inductive Json where
  | null
  | bool (b : Bool)
  | num (n : Int)
  | str (s : String)
  | arr (elems : List Json)
  | obj (fields : List (String × Json))

/-- `Value::get(key)`: field lookup on an object, `None` otherwise. -/
def Json.get? : Json → String → Option Json
  | Json.obj fields, key =>
    (fields.find? (fun f => f.1 == key)).map (fun f => f.2)
  | _, _ => none

/-- `Value::as_bool`. -/
def Json.as_bool : Json → Option Bool
  | Json.bool b => some b
  | _ => none

/-- `Value::as_str`. -/
def Json.as_str : Json → Option String
  | Json.str s => some s
  | _ => none

/-- `Value::as_i64` (on the integral numbers of the model). -/
def Json.as_i64 : Json → Option Int
  | Json.num n => some n
  | _ => none

/-- `Value::as_array`. -/
def Json.as_array : Json → Option (List Json)
  | Json.arr elems => some elems
  | _ => none

/-- The Rust cast `as i32` applied to an `i64` (`database.rs` line 531):
wrap into the two's-complement `i32` range. On every value already in
`[-2^31, 2^31)` it is the identity; in particular `wrapI32 0 = 0`. -/
def wrapI32 (n : Int) : Int := (n + 2 ^ 31) % 2 ^ 32 - 2 ^ 31

/-- The inner `for number_obj in numbers_array` loop of
`database.rs::insert_prize_categories_from_json` (lines 527-544): each entry
is inserted with `round` read defensively (`as_i64`, default 0, then cast
`as i32`) and `value` read defensively (`as_str`, default empty string). -/
def insert_numbers_from_json (c : Conn) (lottery_id : Int)
    (category_name price : String) : List Json → Conn
  | [] => c
  | number_obj :: rest =>
    let round_number :=
      wrapI32 (((number_obj.get? "round").bind Json.as_i64).getD 0)
    let number_value := ((number_obj.get? "value").bind Json.as_str).getD ""
    insert_numbers_from_json
      (execInsertPrizeNumber c lottery_id category_name price number_value
        round_number)
      lottery_id category_name price rest

/-- `database.rs::insert_prize_categories_from_json` (lines 510-549): for
each of the nine fixed category names present in `data`, read `price`
defensively (`as_str`, default `"0.00"`) and insert every entry of the
`number` array (a missing or non-array `number` field skips the category). -/
def insert_prize_categories_from_json (c : Conn) (lottery_id : Int)
    (data : Json) : Conn :=
  ["first", "second", "third", "fourth", "fifth", "last2", "last3f",
   "last3b", "near1"].foldl
    (fun c category_name =>
      match data.get? category_name with
      | none => c
      | some category =>
        let price := ((category.get? "price").bind Json.as_str).getD "0.00"
        match (category.get? "number").bind Json.as_array with
        | none => c
        | some numbers_array =>
          insert_numbers_from_json c lottery_id category_name price
            numbers_array)
    c

/-- `database.rs::parse_and_insert_raw_json` (lines 427-508), the
`RawJsonIngestor.ingest` of the specification. The input is the result of
`serde_json::from_str` on the raw document: `none` models a string that is
not valid JSON (the `ParseError` case). The checks run in source order:
status flag, `response.result`, `date`, `period`, then the draw-record
insert and id resolution (`conn.changes() > 0` picks `last_insert_rowid`,
otherwise the id is looked up by date), and only then the `data` field check
and the prize-category inserts. -/
def parse_and_insert_raw_json (c : Conn) (doc : Option Json) :
    Conn × Except DbErr Int :=
  match doc with
  | none => (c, Except.error (DbErr.invalidColumnType "Invalid JSON"))
  | some json_value =>
    if !(((json_value.get? "status").bind Json.as_bool).getD false) then
      (c, Except.error (DbErr.invalidColumnType "JSON status is false"))
    else
      match (json_value.get? "response").bind (fun r => r.get? "result") with
      | none => (c, Except.error (DbErr.invalidColumnType "Missing result in JSON"))
      | some result =>
        match (result.get? "date").bind Json.as_str with
        | none => (c, Except.error (DbErr.invalidColumnType "Missing date in JSON"))
        | some draw_date =>
          match (result.get? "period").bind Json.as_array with
          | none =>
            (c, Except.error
              (DbErr.invalidColumnType "Missing or invalid period in JSON"))
          | some period_array =>
            let period_str :=
              String.intercalate ","
                ((period_array.filterMap Json.as_i64).map toString)
            let c1 := execInsertLotteryResult c draw_date period_str
            let lottery_id : Option Int :=
              if c1.changes > 0 then some c1.last_insert_rowid
              else selectLotteryIdByDate c1 draw_date
            match lottery_id with
            | none => (c1, Except.error DbErr.queryReturnedNoRows)
            | some lid =>
              match result.get? "data" with
              | none =>
                (c1, Except.error (DbErr.invalidColumnType "Missing data in JSON"))
              | some data =>
                (insert_prize_categories_from_json c1 lid data, Except.ok lid)

/-! ## Concrete fixtures -/

/-- A prize category with no numbers. -/
def emptyCategory : PrizeCategory := ⟨"0", []⟩

/-- The specification's §8 scenario draw: date `2024-03-01`, period `[123]`,
category `first` with price `6000000.00` and the single number
`{round: 1, value: "123456"}`; all other categories empty. -/
def sampleDataOne : LotteryData :=
  ⟨⟨"6000000.00", [⟨1, "123456"⟩]⟩, emptyCategory, emptyCategory,
   emptyCategory, emptyCategory, emptyCategory, emptyCategory, emptyCategory,
   emptyCategory⟩

/-- The §8 scenario result. -/
def sampleResultOne : LotteryResult := ⟨"2024-03-01", [123], sampleDataOne⟩

/-- Like `sampleDataOne` but with two numbers in the `first` category, so a
`save` issues two prize-number inserts. -/
def sampleDataTwo : LotteryData :=
  ⟨⟨"6000000.00", [⟨1, "123456"⟩, ⟨2, "654321"⟩]⟩, emptyCategory,
   emptyCategory, emptyCategory, emptyCategory, emptyCategory, emptyCategory,
   emptyCategory, emptyCategory⟩

/-- A draw result whose `save` issues two prize-number inserts. -/
def sampleResultTwo : LotteryResult := ⟨"2024-03-01", [123], sampleDataTwo⟩

/-- The rows the inner number loop appends, spelled out: one row per entry,
ids from the prize-number autoincrement counter, the price shared across the
category, `value`/`round` read with the source's defensive defaults (and the
round wrapped by the `as i32` cast). -/
def rowsFromJsonNumbers (lottery_id : Int) (category_name price : String) :
    Int → List Json → List PrizeNumberRow
  | _, [] => []
  | seq, number_obj :: rest =>
    ⟨seq, lottery_id, category_name, price,
      ((number_obj.get? "value").bind Json.as_str).getD "",
      wrapI32 (((number_obj.get? "round").bind Json.as_i64).getD 0)⟩ ::
      rowsFromJsonNumbers lottery_id category_name price (seq + 1) rest

/-- A store already holding the draw of `2024-03-01`. -/
def connMarch : Conn := ⟨[⟨1, "2024-03-01", "123"⟩], [], 2, 1, 1, 1⟩

/-- A remote source that is never reached. -/
def fetchNone : String × String × String → FetchOutcome :=
  fun _ => FetchOutcome.err "unreachable"

/-- A remote source failing with a transport error on `("01", "03", "2024")`
and successfully yielding a `2024-03-16` draw for every other date. -/
def fetchBatch : String × String × String → FetchOutcome :=
  fun t =>
    if t = ("01", "03", "2024") then FetchOutcome.err "connection refused"
    else
      FetchOutcome.ok
        ⟨"success", 200, true, some ⟨some ⟨"2024-03-16", [124], sampleDataOne⟩⟩⟩

/-- A batch-persist step that fails with an underlying storage error, as
`rusqlite` surfaces for disk I/O problems on any statement. -/
def failSaveMany : Conn → List LotteryResult → Conn × Except DbErr Unit :=
  fun c _ => (c, Except.error (DbErr.sqliteFailure "disk I/O error"))

/-- A remote source that successfully yields `sampleResultOne` for every
requested date. -/
def fetchMarch : String × String × String → FetchOutcome :=
  fun _ =>
    FetchOutcome.ok ⟨"success", 200, true, some ⟨some sampleResultOne⟩⟩

/-- A document whose nested result lacks the `data` field but is otherwise
well-formed. -/
def docMissingData : Option Json :=
  some (Json.obj
    [("status", Json.bool true),
     ("response", Json.obj
       [("result", Json.obj
         [("date", Json.str "2024-03-01"),
          ("period", Json.arr [Json.num 123])])])])

/-- The document `{"status": false}` of the specification's §8 scenario. -/
def docStatusFalse : Option Json := some (Json.obj [("status", Json.bool false)])

/-- A store holding two draws whose rowid order is ascending by date, so any
date-descending presentation must reverse them. -/
def connTwoDraws : Conn :=
  ⟨[⟨1, "2024-01-01", "1"⟩, ⟨2, "2025-01-01", "2"⟩], [], 3, 1, 2, 1⟩

/-! ## Supporting lemmas -/

theorem charListLe_cons (a b : Char) (as bs : List Char) :
    charListLe (a :: as) (b :: bs) =
      if a < b then true else if b < a then false else charListLe as bs := rfl

theorem charListLe_total : ∀ as bs : List Char,
    charListLe as bs = true ∨ charListLe bs as = true := by
  intro as
  induction as with
  | nil => intro bs; left; rfl
  | cons a as1 ih =>
    intro bs
    cases bs with
    | nil => right; rfl
    | cons b bs1 =>
      rw [charListLe_cons, charListLe_cons]
      by_cases hab : a < b
      · left; simp [hab]
      · by_cases hba : b < a
        · right; simp [hab, hba]
        · rcases ih bs1 with h | h <;> simp [hab, hba, h]

theorem charListLe_trans : ∀ as bs cs : List Char,
    charListLe as bs = true → charListLe bs cs = true →
      charListLe as cs = true := by
  intro as
  induction as with
  | nil => intro bs cs _ _; rfl
  | cons a as1 ih =>
    intro bs cs h1 h2
    cases bs with
    | nil => exact absurd h1 (by simp [charListLe])
    | cons b bs1 =>
      cases cs with
      | nil => exact absurd h2 (by simp [charListLe])
      | cons c cs1 =>
        rw [charListLe_cons] at h1 h2 ⊢
        by_cases hab : a < b
        · by_cases hbc : b < c
          · simp [lt_trans hab hbc]
          · by_cases hcb : c < b
            · simp [hbc, hcb] at h2
            · have hbc2 : b = c := le_antisymm (le_of_not_lt hcb) (le_of_not_lt hbc)
              subst hbc2
              simp [hab]
        · by_cases hba : b < a
          · simp [hab, hba] at h1
          · have hab2 : a = b := le_antisymm (le_of_not_lt hba) (le_of_not_lt hab)
            subst hab2
            simp only [lt_irrefl, if_false] at h1
            by_cases hbc : a < c
            · simp [hbc]
            · by_cases hcb : c < a
              · simp [hbc, hcb] at h2
              · simp only [hbc, hcb, if_false] at h2 ⊢
                exact ih bs1 cs1 h1 h2

theorem strLe_total (a b : String) : strLe a b = true ∨ strLe b a = true :=
  charListLe_total a.data b.data

theorem strLe_trans {a b c : String} (h1 : strLe a b = true)
    (h2 : strLe b c = true) : strLe a c = true :=
  charListLe_trans a.data b.data c.data h1 h2

instance : IsTotal LotteryResultRow rowDateDescLe :=
  ⟨fun x y => by
    unfold rowDateDescLe
    exact strLe_total y.draw_date x.draw_date⟩

instance : IsTrans LotteryResultRow rowDateDescLe :=
  ⟨fun _ _ _ h1 h2 => strLe_trans h2 h1⟩

theorem sorted_sortByDateDesc (l : List LotteryResultRow) :
    List.Sorted rowDateDescLe (sortByDateDesc l) :=
  List.sorted_insertionSort rowDateDescLe l

theorem fetch_loop_trace (fetch : String × String × String → FetchOutcome) :
    ∀ l : List (String × String × String), (fetch_loop fetch l).2 = l := by
  intro l
  induction l with
  | nil => rfl
  | cons t rest ih =>
    simp only [fetch_loop]
    cases extract_result (fetch t) <;> simp [ih]

theorem fetch_loop_results (fetch : String × String × String → FetchOutcome) :
    ∀ l : List (String × String × String),
      (fetch_loop fetch l).1 = l.filterMap (fun t => extract_result (fetch t)) := by
  intro l
  induction l with
  | nil => rfl
  | cons t rest ih =>
    simp only [fetch_loop, List.filterMap_cons]
    cases extract_result (fetch t) <;> simp [ih]

theorem execInsertLotteryResult_prize_numbers (c : Conn) (d p : String) :
    (execInsertLotteryResult c d p).prize_numbers = c.prize_numbers := by
  unfold execInsertLotteryResult
  split <;> rfl

theorem execInsertLotteryResult_not_changed (c : Conn) (d p : String)
    (h : ¬ (execInsertLotteryResult c d p).changes > 0) :
    (execInsertLotteryResult c d p).lottery_results = c.lottery_results := by
  unfold execInsertLotteryResult at h ⊢
  split at h
  next hc => simp [hc]
  next => simp at h


theorem insert_numbers_from_json_spec (lottery_id : Int)
    (category_name price : String) :
    ∀ (numbers : List Json) (c : Conn),
      (insert_numbers_from_json c lottery_id category_name price
          numbers).prize_numbers =
        c.prize_numbers ++
          rowsFromJsonNumbers lottery_id category_name price c.prize_seq
            numbers := by
  intro numbers
  induction numbers with
  | nil => intro c; simp [insert_numbers_from_json, rowsFromJsonNumbers]
  | cons n rest ih =>
    intro c
    simp only [insert_numbers_from_json, rowsFromJsonNumbers]
    rw [ih]
    simp [execInsertPrizeNumber]

theorem rowsFromJsonNumbers_length (lottery_id : Int)
    (category_name price : String) :
    ∀ (seq : Int) (numbers : List Json),
      (rowsFromJsonNumbers lottery_id category_name price seq
          numbers).length = numbers.length := by
  intro seq numbers
  induction numbers generalizing seq with
  | nil => rfl
  | cons n rest ih => simp [rowsFromJsonNumbers, ih]

theorem rowsFromJsonNumbers_amount (lottery_id : Int)
    (category_name price : String) :
    ∀ (seq : Int) (numbers : List Json)
      (p : PrizeNumberRow),
      p ∈ rowsFromJsonNumbers lottery_id category_name price seq numbers →
        p.prize_amount = price := by
  intro seq numbers
  induction numbers generalizing seq with
  | nil => intro p hp; simp [rowsFromJsonNumbers] at hp
  | cons n rest ih =>
    intro p hp
    simp only [rowsFromJsonNumbers, List.mem_cons] at hp
    rcases hp with h | h
    · rw [h]
    · exact ih _ p h

theorem rowsFromJsonNumbers_fields (lottery_id : Int)
    (category_name price : String) :
    ∀ (seq : Int) (numbers : List Json),
      (rowsFromJsonNumbers lottery_id category_name price seq numbers).map
          (fun p => (p.number_value, p.round_number)) =
        numbers.map
          (fun n => (((n.get? "value").bind Json.as_str).getD "",
            wrapI32 (((n.get? "round").bind Json.as_i64).getD 0))) := by
  intro seq numbers
  induction numbers generalizing seq with
  | nil => rfl
  | cons n rest ih => simp [rowsFromJsonNumbers, ih]


/-! ## Claims -/

/-- C1 — the idempotence guarantee fails on the code: starting from a fresh
database, `save(R)` followed by `save(R)` does *not* leave the store in the
state of a single `save(R)`. The first save persists one DrawRecord and one
PrizeNumber row; the second save's draw insert is correctly ignored, but its
prize insert runs again and, the `prize_numbers` table declaring no
uniqueness constraint, appends a second row with the same
(drawId, category, numberValue, roundNumber) tuple: one prize row after one
save, two after two. -/
theorem save_twice_not_idempotent :
    ((save_lottery_result create_database sampleResultOne).1.prize_numbers.length = 1) ∧
    ((save_lottery_result (save_lottery_result create_database sampleResultOne).1
        sampleResultOne).1.prize_numbers.length = 2) ∧
    ((save_lottery_result (save_lottery_result create_database sampleResultOne).1
        sampleResultOne).1 ≠
      (save_lottery_result create_database sampleResultOne).1) := by decide

/-- C2 — the claimed uniqueness invariant fails on the code: running the
prize-number persistence step twice for the same draw id and data inserts a
second row with the exact same (drawId, category, numberValue, roundNumber)
tuple. The `CREATE TABLE prize_numbers` statement declares no uniqueness over
that tuple, so the `INSERT OR IGNORE` never has a constraint to ignore. -/
theorem duplicate_prize_tuple_inserts_second_row :
    (((save_prize_numbers create_database 1 sampleDataOne).prize_numbers.filter
        (fun p => p.lottery_id == 1 && p.category == "first" &&
          p.number_value == "123456" && p.round_number == 1)).length = 1) ∧
    (((save_prize_numbers (save_prize_numbers create_database 1 sampleDataOne)
          1 sampleDataOne).prize_numbers.filter
        (fun p => p.lottery_id == 1 && p.category == "first" &&
          p.number_value == "123456" && p.round_number == 1)).length = 2) := by
  decide

/-- C3 — the id-resolution claim fails on the code: after a first save of
`sampleResultTwo` (draw id 1, two prize rows with rowids 1 and 2, so the
connection's `last_insert_rowid` is 2), a second save of the same result has
its draw insert ignored, reads `last_insert_rowid() = 2 ≠ 0`, skips the
lookup-by-date fallback, and persists the prize numbers under lottery id 2 —
the rowid of a prize row — although the DrawRecord whose drawDate matches the
result carries id 1. -/
theorem save_resolves_wrong_draw_id :
    ((save_lottery_result create_database sampleResultTwo).1.lottery_results =
      [⟨1, "2024-03-01", "123"⟩]) ∧
    (selectLotteryIdByDate (save_lottery_result create_database sampleResultTwo).1
        "2024-03-01" = some 1) ∧
    ((save_lottery_result create_database sampleResultTwo).1.last_insert_rowid = 2) ∧
    (((save_lottery_result (save_lottery_result create_database sampleResultTwo).1
          sampleResultTwo).1.prize_numbers.filter
        (fun p => p.lottery_id == 2)).length = 2) ∧
    (((save_lottery_result create_database sampleResultTwo).1.prize_numbers.filter
        (fun p => p.lottery_id == 2)).length = 0) := by decide

/-- C5 — partition correctness of `check_existing_dates`, for every store
state and every input sequence: `dates_to_fetch` is a sublist of the input
(so it preserves input order), every triple in it had `exists = false` for
its canonical key before the call, every key in `existing_dates` had
`exists = true` before the call, the two buckets' canonical keys together
are a permutation of the input's canonical keys, and the buckets are
disjoint by canonical key. -/
theorem check_existing_dates_partition (c : Conn)
    (dates : List (String × String × String)) :
    ((check_existing_dates c dates).1.Sublist dates) ∧
    (∀ t ∈ (check_existing_dates c dates).1,
      lottery_exists_for_date c (format_date_for_api t.1 t.2.1 t.2.2) = false) ∧
    (∀ k ∈ (check_existing_dates c dates).2,
      lottery_exists_for_date c k = true) ∧
    ((dates.map (fun t => format_date_for_api t.1 t.2.1 t.2.2)).Perm
      ((check_existing_dates c dates).1.map
          (fun t => format_date_for_api t.1 t.2.1 t.2.2) ++
        (check_existing_dates c dates).2)) ∧
    (∀ t ∈ (check_existing_dates c dates).1,
      format_date_for_api t.1 t.2.1 t.2.2 ∉ (check_existing_dates c dates).2) := by
  induction dates with
  | nil =>
    exact ⟨List.Sublist.refl _, by simp [check_existing_dates],
      by simp [check_existing_dates], by simp [check_existing_dates],
      by simp [check_existing_dates]⟩
  | cons t rest ih =>
    obtain ⟨ih1, ih2, ih3, ih4, ih5⟩ := ih
    by_cases hex :
      lottery_exists_for_date c (format_date_for_api t.1 t.2.1 t.2.2) = true
    · simp only [check_existing_dates, hex, if_true]
      refine ⟨ih1.cons _, ih2, ?_, ?_, ?_⟩
      · intro k hk
        rcases List.mem_cons.mp hk with h | h
        · rw [h]; exact hex
        · exact ih3 k h
      · simpa using (ih4.cons _).trans List.perm_middle.symm
      · intro t2 ht2
        intro hmem
        rcases List.mem_cons.mp hmem with h | h
        · have h2 := ih2 t2 ht2
          rw [h] at h2
          rw [h2] at hex
          exact Bool.false_ne_true hex
        · exact ih5 t2 ht2 h
    · have hex2 :
        lottery_exists_for_date c (format_date_for_api t.1 t.2.1 t.2.2) = false := by
        simpa using hex
      simp only [check_existing_dates, hex2, Bool.false_eq_true, if_false]
      refine ⟨ih1.cons₂ _, ?_, ih3, ?_, ?_⟩
      · intro t2 ht2
        rcases List.mem_cons.mp ht2 with h | h
        · rw [h]; exact hex2
        · exact ih2 t2 h
      · simpa using ih4.cons (format_date_for_api t.1 t.2.1 t.2.2)
      · intro t2 ht2
        rcases List.mem_cons.mp ht2 with h | h
        · rw [h]
          intro hmem
          rw [ih3 _ hmem] at hex2
          exact Bool.false_ne_true hex2.symm
        · exact ih5 t2 h

theorem check_existing_dates_to_fetch_nil (c : Conn) :
    ∀ dates : List (String × String × String),
      (∀ t ∈ dates,
        lottery_exists_for_date c (format_date_for_api t.1 t.2.1 t.2.2) = true) →
      (check_existing_dates c dates).1 = [] := by
  intro dates
  induction dates with
  | nil => intro _; rfl
  | cons t rest ih =>
    intro h
    have ht := h t (List.mem_cons_self t rest)
    simp only [check_existing_dates, ht, if_true]
    exact ih (fun t2 ht2 => h t2 (List.mem_cons_of_mem _ ht2))

/-- C6 — if every requested date already exists in the store, the pipeline
partitions everything into `existing_dates`, leaving `dates_to_fetch` empty,
and returns `Ok([])` immediately with the store untouched; the fetch-call
trace is empty — zero calls against the remote source (the loop body, the
only site issuing fetches, is never entered). Holds for any remote source
and any batch-persist instantiation. -/
theorem run_noop_when_all_dates_exist
    (saveManyOp : Conn → List LotteryResult → Conn × Except DbErr Unit)
    (fetch : String × String × String → FetchOutcome)
    (c : Conn) (dates : List (String × String × String))
    (h : ∀ t ∈ dates,
      lottery_exists_for_date c (format_date_for_api t.1 t.2.1 t.2.2) = true) :
    ((check_existing_dates c dates).1 = []) ∧
    (fetch_and_save_multiple_results saveManyOp fetch c dates =
      ((c, Except.ok []), [])) := by
  have h1 := check_existing_dates_to_fetch_nil c dates h
  refine ⟨h1, ?_⟩
  simp [fetch_and_save_multiple_results, h1]


/-- Witness for C6: the single requested date `("01", "03", "2024")` already
exists in `connMarch`, and the pipeline returns `Ok([])` with an empty
fetch trace. -/
theorem run_noop_when_all_dates_exist_witness :
    (∀ t ∈ [("01", "03", "2024")],
      lottery_exists_for_date connMarch
        (format_date_for_api t.1 t.2.1 t.2.2) = true) ∧
    (fetch_and_save_multiple_results save_multiple_lottery_results fetchNone
        connMarch [("01", "03", "2024")] = ((connMarch, Except.ok []), [])) :=
  ⟨by decide,
    (run_noop_when_all_dates_exist save_multiple_lottery_results fetchNone
      connMarch [("01", "03", "2024")] (by decide)).2⟩

theorem run_unfold_nonempty
    (saveManyOp : Conn → List LotteryResult → Conn × Except DbErr Unit)
    (fetch : String × String × String → FetchOutcome)
    (c : Conn) (dates : List (String × String × String))
    (hne : (check_existing_dates c dates).1 ≠ []) :
    fetch_and_save_multiple_results saveManyOp fetch c dates =
      (if (fetch_loop fetch (check_existing_dates c dates).1).1.isEmpty then
        ((c, Except.ok (fetch_loop fetch (check_existing_dates c dates).1).1),
          (fetch_loop fetch (check_existing_dates c dates).1).2)
      else
        match saveManyOp c (fetch_loop fetch (check_existing_dates c dates).1).1 with
        | (c1, Except.ok _) =>
          ((c1, Except.ok (fetch_loop fetch (check_existing_dates c dates).1).1),
            (fetch_loop fetch (check_existing_dates c dates).1).2)
        | (c1, Except.error e) =>
          ((c1, Except.error e),
            (fetch_loop fetch (check_existing_dates c dates).1).2)) := by
  unfold fetch_and_save_multiple_results
  rw [if_neg]
  simp [hne]

/-- C7 — per-date failure containment in the pipeline, for any remote source,
any store, and any batch of requested dates: when some date `d` of
`dates_to_fetch` yields no result (a transport/decode failure or a `NoResult`
response — anything with `extract_result = none`), the loop still issues a
fetch for every element of `dates_to_fetch` in input order, the accumulator
still collects exactly the successfully decoded results in order, and, if
the accumulator is non-empty, the trailing batch-persist step still receives
it. -/
theorem run_tolerates_single_date_failure
    (saveManyOp : Conn → List LotteryResult → Conn × Except DbErr Unit)
    (fetch : String × String × String → FetchOutcome)
    (c : Conn) (dates : List (String × String × String))
    (d : String × String × String)
    (hlen : 1 < dates.length)
    (hd : d ∈ (check_existing_dates c dates).1)
    (hfail : extract_result (fetch d) = none) :
    ((fetch_loop fetch (check_existing_dates c dates).1).2 =
      (check_existing_dates c dates).1) ∧
    ((fetch_loop fetch (check_existing_dates c dates).1).1 =
      (check_existing_dates c dates).1.filterMap
        (fun t => extract_result (fetch t))) ∧
    ((fetch_and_save_multiple_results saveManyOp fetch c dates).2 =
      (check_existing_dates c dates).1) ∧
    ((fetch_loop fetch (check_existing_dates c dates).1).1 ≠ [] →
      ((fetch_and_save_multiple_results saveManyOp fetch c dates).1.1 =
        (saveManyOp c (fetch_loop fetch (check_existing_dates c dates).1).1).1) ∧
      ((saveManyOp c (fetch_loop fetch (check_existing_dates c dates).1).1).2 =
          Except.ok () →
        (fetch_and_save_multiple_results saveManyOp fetch c dates).1.2 =
          Except.ok (fetch_loop fetch (check_existing_dates c dates).1).1)) := by
  have hne : (check_existing_dates c dates).1 ≠ [] := by
    intro h0
    rw [h0] at hd
    exact (List.not_mem_nil d) hd
  have htrace := fetch_loop_trace fetch (check_existing_dates c dates).1
  have hres := fetch_loop_results fetch (check_existing_dates c dates).1
  rw [run_unfold_nonempty saveManyOp fetch c dates hne]
  refine ⟨htrace, hres, ?_, ?_⟩
  · by_cases hemp : (fetch_loop fetch (check_existing_dates c dates).1).1.isEmpty
    · simp [hemp, htrace]
    · simp only [hemp, if_false, Bool.false_eq_true]
      rcases hsv :
        saveManyOp c (fetch_loop fetch (check_existing_dates c dates).1).1 with
        ⟨c1, out⟩
      cases out <;> simp [htrace]
  · intro hne2
    have hemp : (fetch_loop fetch (check_existing_dates c dates).1).1.isEmpty = false := by
      simp [List.isEmpty_iff, hne2]
    simp only [hemp, if_false, Bool.false_eq_true]
    rcases hsv :
      saveManyOp c (fetch_loop fetch (check_existing_dates c dates).1).1 with
      ⟨c1, out⟩
    cases out with
    | ok u => simp
    | error e =>
      refine ⟨rfl, ?_⟩
      intro hok
      simp at hok


/-- Witness for C7: a fresh store, the two requested dates
`("01", "03", "2024")` and `("16", "03", "2024")`, a transport error on the
first; the loop still issues a fetch for both dates in order. -/
theorem run_tolerates_single_date_failure_witness :
    (1 < ([("01", "03", "2024"), ("16", "03", "2024")] :
      List (String × String × String)).length) ∧
    (("01", "03", "2024") ∈
      (check_existing_dates create_database
        [("01", "03", "2024"), ("16", "03", "2024")]).1) ∧
    (extract_result (fetchBatch ("01", "03", "2024")) = none) ∧
    ((fetch_loop fetchBatch
        (check_existing_dates create_database
          [("01", "03", "2024"), ("16", "03", "2024")]).1).2 =
      (check_existing_dates create_database
        [("01", "03", "2024"), ("16", "03", "2024")]).1) :=
  ⟨by decide, by decide, by decide,
    (run_tolerates_single_date_failure save_multiple_lottery_results fetchBatch
      create_database [("01", "03", "2024"), ("16", "03", "2024")]
      ("01", "03", "2024") (by decide) (by decide) (by decide)).1⟩


/-- C4 counterexample — with one requested date on a fresh store, the fetch
loop accumulates one result, yet when the trailing batch-persist step fails
the pipeline's return value is the bare persistence error (Rust
`Result::Err`): the accumulated fetched results are not part of the returned
value, contrary to the claim that they are returned alongside the error. -/
theorem run_save_failure_drops_results :
    ((fetch_loop fetchMarch
        (check_existing_dates create_database [("01", "03", "2024")]).1).1 =
      [sampleResultOne]) ∧
    ((fetch_and_save_multiple_results failSaveMany fetchMarch create_database
        [("01", "03", "2024")]).1.2 =
      Except.error (DbErr.sqliteFailure "disk I/O error")) := by decide

/-- C4 amended — whenever the fetch loop has accumulated a non-empty result
list and the trailing batch-persist step fails, the pipeline's `?` operator
propagates the persistence error as the entire return value: the caller gets
`Err(e)` (together with the store state the failed save left behind), and
the accumulated results are replaced by the error, not returned beside it. -/
theorem run_save_failure_replaces_results
    (saveManyOp : Conn → List LotteryResult → Conn × Except DbErr Unit)
    (fetch : String × String × String → FetchOutcome)
    (c : Conn) (dates : List (String × String × String))
    (c1 : Conn) (e : DbErr)
    (hne : (fetch_loop fetch (check_existing_dates c dates).1).1 ≠ [])
    (hsave : saveManyOp c (fetch_loop fetch (check_existing_dates c dates).1).1 =
      (c1, Except.error e)) :
    fetch_and_save_multiple_results saveManyOp fetch c dates =
      ((c1, Except.error e),
        (fetch_loop fetch (check_existing_dates c dates).1).2) := by
  have hneTF : (check_existing_dates c dates).1 ≠ [] := by
    intro h0
    apply hne
    rw [h0]
    rfl
  rw [run_unfold_nonempty saveManyOp fetch c dates hneTF]
  have hemp :
      (fetch_loop fetch (check_existing_dates c dates).1).1.isEmpty = false := by
    simp [List.isEmpty_iff, hne]
  simp only [hemp, Bool.false_eq_true, if_false, hsave]

/-- Witness for the amended C4: the concrete failing-save scenario of the
counterexample, run through the amended theorem. -/
theorem run_save_failure_replaces_results_witness :
    ((fetch_loop fetchMarch
        (check_existing_dates create_database [("01", "03", "2024")]).1).1 ≠ []) ∧
    (failSaveMany create_database
        (fetch_loop fetchMarch
          (check_existing_dates create_database [("01", "03", "2024")]).1).1 =
      (create_database, Except.error (DbErr.sqliteFailure "disk I/O error"))) ∧
    (fetch_and_save_multiple_results failSaveMany fetchMarch create_database
        [("01", "03", "2024")] =
      ((create_database, Except.error (DbErr.sqliteFailure "disk I/O error")),
        (fetch_loop fetchMarch
          (check_existing_dates create_database [("01", "03", "2024")]).1).2)) :=
  ⟨by decide, by decide,
    run_save_failure_replaces_results failSaveMany fetchMarch create_database
      [("01", "03", "2024")] create_database
      (DbErr.sqliteFailure "disk I/O error") (by decide) (by decide)⟩

/-- C8 amended — failure containment of `parse_and_insert_raw_json`: a
failed ingest never touches the `prize_numbers` table, and, for every
failure other than the missing-`data` schema error, it leaves
`lottery_results` untouched as well. (The missing-`data` error is raised
only after the draw-record insert has already run, so that one failing call
can persist a DrawRecord.) -/
theorem ingest_error_persistence
    (c : Conn) (doc : Option Json) (e : DbErr)
    (h : (parse_and_insert_raw_json c doc).2 = Except.error e) :
    ((parse_and_insert_raw_json c doc).1.prize_numbers = c.prize_numbers) ∧
    (e ≠ DbErr.invalidColumnType "Missing data in JSON" →
      (parse_and_insert_raw_json c doc).1.lottery_results =
        c.lottery_results) := by
  cases doc with
  | none => simp [parse_and_insert_raw_json]
  | some j =>
    cases hs1 : ((j.get? "status").bind Json.as_bool).getD false with
    | false => simp [parse_and_insert_raw_json, hs1]
    | true =>
      simp only [parse_and_insert_raw_json, hs1, Bool.not_true] at h ⊢
      cases hs2 : (j.get? "response").bind (fun r => r.get? "result") with
      | none => simp [hs2]
      | some result =>
        simp only [hs2] at h ⊢
        cases hs3 : (result.get? "date").bind Json.as_str with
        | none => simp [hs3]
        | some draw_date =>
          simp only [hs3] at h ⊢
          cases hs4 : (result.get? "period").bind Json.as_array with
          | none => simp [hs4]
          | some period_array =>
            simp only [hs4] at h ⊢
            cases hs5 :
              (if (execInsertLotteryResult c draw_date
                    (String.intercalate ","
                      ((period_array.filterMap Json.as_i64).map toString))).changes > 0 then
                some (execInsertLotteryResult c draw_date
                    (String.intercalate ","
                      ((period_array.filterMap Json.as_i64).map toString))).last_insert_rowid
              else
                selectLotteryIdByDate
                  (execInsertLotteryResult c draw_date
                    (String.intercalate ","
                      ((period_array.filterMap Json.as_i64).map toString)))
                  draw_date) with
            | none =>
              simp only [hs5] at h ⊢
              have hch :
                  ¬ (execInsertLotteryResult c draw_date
                      (String.intercalate ","
                        ((period_array.filterMap Json.as_i64).map toString))).changes > 0 := by
                intro hpos
                rw [if_pos hpos] at hs5
                exact Option.some_ne_none _ hs5
              refine ⟨execInsertLotteryResult_prize_numbers c _ _, ?_⟩
              intro _
              exact execInsertLotteryResult_not_changed c _ _ hch
            | some lid =>
              simp only [hs5] at h ⊢
              cases hs6 : result.get? "data" with
              | none =>
                simp only [hs6] at h ⊢
                refine ⟨execInsertLotteryResult_prize_numbers c _ _, ?_⟩
                intro hne
                injection h with h4
                exact absurd h4.symm hne
              | some data =>
                simp only [hs6] at h
                exact absurd h (by simp)


/-- C8 counterexample — ingesting a document whose nested result lacks the
`data` field fails with the missing-`data` schema error, yet the failed call
has persisted a DrawRecord into the previously empty store, contrary to the
claim that every such failure leaves the store unchanged. -/
theorem ingest_missing_data_persists_draw :
    ((parse_and_insert_raw_json create_database docMissingData).2 =
      Except.error (DbErr.invalidColumnType "Missing data in JSON")) ∧
    ((parse_and_insert_raw_json create_database
        docMissingData).1.lottery_results = [⟨1, "2024-03-01", "123"⟩]) ∧
    (create_database.lottery_results = []) := by decide


/-- Witness for the amended C8: ingesting `{"status": false}` fails with the
rejected-status error and persists nothing in either table. -/
theorem ingest_error_persistence_witness :
    ((parse_and_insert_raw_json create_database docStatusFalse).2 =
      Except.error (DbErr.invalidColumnType "JSON status is false")) ∧
    ((parse_and_insert_raw_json create_database docStatusFalse).1.prize_numbers =
      create_database.prize_numbers) ∧
    (DbErr.invalidColumnType "JSON status is false" ≠
        DbErr.invalidColumnType "Missing data in JSON" →
      (parse_and_insert_raw_json create_database docStatusFalse).1.lottery_results =
        create_database.lottery_results) :=
  ⟨by decide,
    (ingest_error_persistence create_database docStatusFalse
      (DbErr.invalidColumnType "JSON status is false") (by decide)).1,
    (ingest_error_persistence create_database docStatusFalse
      (DbErr.invalidColumnType "JSON status is false") (by decide)).2⟩

theorem rowsFromJsonNumbers_mem (lid : Int) (name price : String) :
    ∀ (seq : Int) (numbers : List Json) (p : PrizeNumberRow),
      p ∈ rowsFromJsonNumbers lid name price seq numbers →
        p.prize_amount = price ∧ p.category = name ∧ p.lottery_id = lid := by
  intro seq numbers
  induction numbers generalizing seq with
  | nil => intro p hp; simp [rowsFromJsonNumbers] at hp
  | cons n rest ih =>
    intro p hp
    simp only [rowsFromJsonNumbers, List.mem_cons] at hp
    rcases hp with h | h
    · rw [h]
      exact ⟨rfl, rfl, rfl⟩
    · exact ih _ p h

/-- C9 — defensive per-field reads in the raw-JSON prize persistence, for
any store, draw id, and `number` array: a `first` category object carrying
no `price` field still has every one of its number entries inserted (the
table grows by exactly the array's length), each inserted row uses the fixed
placeholder amount `"0.00"`, and each row's value/round columns are the
entry's `value` (empty string when missing or non-string) and `round`
(`as_i64` defaulting to 0 when missing or non-integral, then wrapped by the
`as i32` cast) — no per-field omission aborts the document. The last
conjunct spells the defaults out at a field-free entry: it is inserted with
the empty string and round 0. -/
theorem ingest_defensive_field_defaults (c : Conn) (lottery_id : Int)
    (numbers : List Json) :
    ((insert_prize_categories_from_json c lottery_id
        (Json.obj [("first", Json.obj
          [("number", Json.arr numbers)])])).prize_numbers.length =
      c.prize_numbers.length + numbers.length) ∧
    (∀ p ∈ (insert_prize_categories_from_json c lottery_id
        (Json.obj [("first", Json.obj
          [("number", Json.arr numbers)])])).prize_numbers.drop
        c.prize_numbers.length,
      p.prize_amount = "0.00" ∧ p.category = "first" ∧
        p.lottery_id = lottery_id) ∧
    (((insert_prize_categories_from_json c lottery_id
        (Json.obj [("first", Json.obj
          [("number", Json.arr numbers)])])).prize_numbers.drop
        c.prize_numbers.length).map (fun p => (p.number_value, p.round_number)) =
      numbers.map (fun n =>
        (((n.get? "value").bind Json.as_str).getD "",
          wrapI32 (((n.get? "round").bind Json.as_i64).getD 0)))) ∧
    ((insert_prize_categories_from_json c lottery_id
        (Json.obj [("first", Json.obj
          [("number", Json.arr [Json.obj []])])])).prize_numbers =
      c.prize_numbers ++ [⟨c.prize_seq, lottery_id, "first", "0.00", "", 0⟩]) := by
  have hstep :
      insert_prize_categories_from_json c lottery_id
        (Json.obj [("first", Json.obj [("number", Json.arr numbers)])]) =
      insert_numbers_from_json c lottery_id "first" "0.00" numbers := rfl
  have hstep2 :
      insert_prize_categories_from_json c lottery_id
        (Json.obj [("first", Json.obj [("number", Json.arr [Json.obj []])])]) =
      insert_numbers_from_json c lottery_id "first" "0.00" [Json.obj []] := rfl
  rw [hstep, hstep2, insert_numbers_from_json_spec, insert_numbers_from_json_spec]
  refine ⟨?_, ?_, ?_, ?_⟩
  · simp [rowsFromJsonNumbers_length]
  · intro p hp
    rw [List.drop_left] at hp
    exact rowsFromJsonNumbers_mem lottery_id "first" "0.00" c.prize_seq numbers p hp
  · rw [List.drop_left]
    exact rowsFromJsonNumbers_fields lottery_id "first" "0.00" c.prize_seq numbers
  · norm_num [rowsFromJsonNumbers, Json.get?, wrapI32]


/-- C10 — the limited after-date read applies no ordering: at `connTwoDraws`
it returns the rows in table order, ascending by date, which is not
date-descending order; by contrast the unlimited after-date read and both
before-date reads (whose queries carry `ORDER BY draw_date DESC`) return
date-descending rows for every store, date, and limit. -/
theorem after_date_limited_unordered :
    ((get_lottery_results_after_date connTwoDraws "2000-01-01" (some 2) =
      [⟨1, "2024-01-01", "1"⟩, ⟨2, "2025-01-01", "2"⟩]) ∧
      ¬ List.Sorted rowDateDescLe
        (get_lottery_results_after_date connTwoDraws "2000-01-01" (some 2))) ∧
    (∀ (c : Conn) (date : String),
      List.Sorted rowDateDescLe (get_lottery_results_after_date c date none)) ∧
    (∀ (c : Conn) (date : String) (n : Int),
      List.Sorted rowDateDescLe
        (get_lottery_results_before_date c date (some n))) ∧
    (∀ (c : Conn) (date : String),
      List.Sorted rowDateDescLe (get_lottery_results_before_date c date none)) := by
  refine ⟨⟨?_, ?_⟩, ?_, ?_, ?_⟩
  · decide
  · intro h
    have heq :
        get_lottery_results_after_date connTwoDraws "2000-01-01" (some 2) =
          [(⟨1, "2024-01-01", "1"⟩ : LotteryResultRow),
            ⟨2, "2025-01-01", "2"⟩] := by decide
    rw [heq] at h
    have hrel := List.rel_of_sorted_cons h _ (List.mem_cons_self _ _)
    exact absurd hrel (by decide)
  · intro c date
    exact sorted_sortByDateDesc _
  · intro c date n
    by_cases hn : n < 0
    · simp only [get_lottery_results_before_date, if_pos hn]
      exact sorted_sortByDateDesc _
    · simp only [get_lottery_results_before_date, if_neg hn]
      exact List.Pairwise.sublist (List.take_sublist _ _) (sorted_sortByDateDesc _)
  · intro c date
    exact sorted_sortByDateDesc _
